import Mathlib

/-!
Shallow embedding of the dawg-logger core (namespace `DawgLog`):
the `Logger` dispatch pipeline (`logger.hpp` / `logger.cpp`), the `Config`
loader (`config.hpp`) and the metrics registry bolted onto the `Logger`.

Modelling conventions:
* C++ `std::unique_ptr` members that may be null become `Option`.
* A `Formatter` is, per its contract, a pure function `Record → String`.
* A `Sink` is identified by its constructed value; a call to
  `sink->write(rec, repr)` is recorded as a `Write` event returned by `log`
  (the transport itself is an external collaborator).
* C++ exceptions become an `Option String` error component (`some msg` means
  the call threw with message `msg`); heap mutations that happened before the
  throw persist in the returned state, as they do in the C++ code.
* `double` metric values are modelled as `Rat`; the claims under study only
  add, subtract and set them.
* `unordered_map` / prometheus family instance maps become association lists
  looked up with `alookup`.
* `Logger.history` is specification-level instrumentation: the list of
  Records the dispatch loop has been run on, newest last.  The C++ object
  keeps no such list; it exists only so that "the first Record this Logger
  ever dispatched" is expressible.
-/

namespace DawgLog

/-- Log severity levels, ordered trace < debug < ... < fatal. -/
inductive LogLevel
  | trace | debug | info | notice | warning | error | fatal
  deriving DecidableEq, Repr

/-- Call-site source location (file, line, function), captured by the
logging macros. -/
structure SourceLocation where
  file : String
  line : Nat
  func : String
  deriving DecidableEq, Repr

/-- One immutable log event: `Record{lvl, tag, src, app_name, msg}` as built
in `Logger::log`. -/
structure Record where
  lvl : LogLevel
  tag : String
  src : SourceLocation
  app_name : String
  message : String
  deriving DecidableEq, Repr

/-- A formatter is a pure function from a Record to its output
representation (the `Formatter::format` contract). -/
def Formatter := Record → String

/-- Sink variants; a sink value carries the app name it was constructed
with (`ConsoleSink(app_name)` / `SyslogSink(app_name)`). -/
inductive Sink
  | console (app_name : String)
  | syslog (app_name : String)
  deriving DecidableEq, Repr

/-- `Logger::Target`: one sink plus one formatter, either of which may be
null (`Option.none`). -/
structure Target where
  sink : Option Sink
  formatter : Option Formatter

/-- One delivered write: the sink written to, the Record handed to it, and
the representation produced by the target's formatter. -/
structure Write where
  sink : Sink
  record : Record
  repr : String
  deriving DecidableEq, Repr

/-- Substitute positional arguments for the `\x7b\x7d` placeholders of a fmt
format string, left to right (model of `fmt::format` restricted to plain
placeholders; surplus placeholders are left in place, which in fmt itself
would raise a format error — out of scope for the claims under study). -/
def substArgs : List Char → List String → List Char
  | [], _ => []
  | '{' :: '}' :: rest, a :: args => a.data ++ substArgs rest args
  | c :: rest, args => c :: substArgs rest args

/-- `fmt::format(fmt_str, args...)` on string arguments. -/
def fmtFormat (fmt_str : String) (args : List String) : String :=
  ⟨substArgs fmt_str.data args⟩

/-- Metric label sets (`std::map<std::string, std::string>`). -/
abbrev Labels := List (String × String)

/-- `Logger::MetricAction`. -/
inductive MetricAction
  | Increment | Decrement | Set | Observe
  deriving DecidableEq, Repr

/-- `prometheus::MetricType`. -/
inductive MetricType
  | Counter | Gauge | Histogram | Summary | Untyped | Info
  deriving DecidableEq, Repr

/-- State of one metric family together with its registered type
(model of `Logger::FamilyVariant`, the variant over the four prometheus
family pointers; each family owns its instances, keyed by label set).
Counter and gauge instances hold the current value; histogram and summary
instances hold the list of observed values. -/
inductive Family
  | counter (instances : List (Labels × Rat))
  | gauge (instances : List (Labels × Rat))
  | histogram (instances : List (Labels × List Rat))
  | summary (instances : List (Labels × List Rat))
  deriving DecidableEq

/-- Association-list lookup by decidable equality (model of map lookup). -/
def alookup {A B : Type} [DecidableEq A] : List (A × B) → A → Option B
  | [], _ => none
  | (k, v) :: rest, key => if key = k then some v else alookup rest key

/-- `Family<T>::Add(labels)` when the instance may be absent: return the map
with an instance for `labels` present, created with value `d` if new. -/
def instEnsure {A : Type} (insts : List (Labels × A)) (labels : Labels)
    (d : A) : List (Labels × A) :=
  match alookup insts labels with
  | some _ => insts
  | none => insts ++ [(labels, d)]

/-- Apply `f` to the value of the instance keyed by `labels`. -/
def instModify {A : Type} : List (Labels × A) → Labels → (A → A) →
    List (Labels × A)
  | [], _, _ => []
  | (k, v) :: rest, labels, f =>
      (if k = labels then (k, f v) else (k, v)) :: instModify rest labels f

/-- Replace the value stored under `key` in an association list (entries
with other keys are untouched). -/
def updateEntry {A B : Type} [DecidableEq A] : List (A × B) → A → B →
    List (A × B)
  | [], _, _ => []
  | (k, v) :: rest, key, b =>
      (if k = key then (k, b) else (k, v)) :: updateEntry rest key b

/-- `DAWGLOG_DEFAULT_BUCKETS`. -/
def DAWGLOG_DEFAULT_BUCKETS : List Rat :=
  [0.005, 0.01, 0.025, 0.05, 0.1, 0.25, 0.5, 1, 2.5, 5, 10]

/-- `DAWGLOG_DEFAULT_QUANTILES` (quantile, error). -/
def DAWGLOG_DEFAULT_QUANTILES : List (Rat × Rat) :=
  [(0.5, 0.05), (0.9, 0.01), (0.99, 0.001)]

/-- The `Logger`: ordered target list, app name, and the metrics registry
maps (`families_`, `histogram_buckets_`, `summary_quantiles_`).  The mutex
serializes operations and is not part of the sequential state.  `history`
is specification-level instrumentation (see the file header). -/
structure Logger where
  targets : List Target
  app_name : String
  families : List (String × Family)
  histogram_buckets : List (String × List Rat)
  summary_quantiles : List (String × List (Rat × Rat))
  history : List Record

/-- `Logger::Logger(targets, app_name)`: fresh metrics registry, nothing
dispatched yet. -/
def Logger.create (targets : List Target) (app_name : String) : Logger :=
  ⟨targets, app_name, [], [], [], []⟩

/-- Body of the dispatch loop in `Logger::log`: a target missing its sink or
its formatter is skipped (`continue`, producing no write); otherwise one
write of the formatted representation is delivered to the sink. -/
def dispatchTarget (r : Record) (t : Target) : Option Write :=
  match t.sink, t.formatter with
  | some s, some f => some ⟨s, r, f r⟩
  | _, _ => none

/-- `Logger::log(lvl, tag, src, fmt_str, args...)`: format the message once,
build a Record, fan it out to every target that has both halves, return the
formatted message.  The result is the post-state, the returned string, and
the list of writes performed, in target registration order. -/
def Logger.log (l : Logger) (lvl : LogLevel) (tag : String)
    (src : SourceLocation) (fmt_str : String) (args : List String) :
    Logger × String × List Write :=
  let msg := fmtFormat fmt_str args
  let r := Record.mk lvl tag src l.app_name msg
  let writes := l.targets.filterMap (dispatchTarget r)
  ({ l with history := l.history ++ [r] }, msg, writes)

/-- A target participates in dispatch iff both its sink and its formatter
are present. -/
def Target.valid (t : Target) : Bool :=
  t.sink.isSome && t.formatter.isSome

/-- `Logger::set_formatter(fmt)`: no-op when the target list is empty,
otherwise replace the front target's formatter. -/
def Logger.set_formatter (l : Logger) (fmt : Option Formatter) : Logger :=
  match l.targets with
  | [] => l
  | t :: ts => { l with targets := { t with formatter := fmt } :: ts }

/-- `Logger::set_sink(sink)`: no-op when the target list is empty,
otherwise replace the front target's sink. -/
def Logger.set_sink (l : Logger) (sink : Option Sink) : Logger :=
  match l.targets with
  | [] => l
  | t :: ts => { l with targets := { t with sink := sink } :: ts }

/-- `Logger::set_targets(targets)`: replace the whole list. -/
def Logger.set_targets (l : Logger) (targets : List Target) : Logger :=
  { l with targets := targets }

/-- `Logger::add_target(sink, formatter)`: append one target. -/
def Logger.add_target (l : Logger) (sink : Option Sink)
    (formatter : Option Formatter) : Logger :=
  { l with targets := l.targets ++ [⟨sink, formatter⟩] }

/-- Replace the family registered under `name` (the C++ code mutates the
family object in place through the pointer stored in `families_`). -/
def Logger.setFamily (l : Logger) (name : String) (f : Family) : Logger :=
  { l with families := updateEntry l.families name f }

/-- `Logger::add_metric(name, help, type, buckets, quantiles)`.  Returns the
post-state and `some message` when the C++ code throws.  The duplicate check
comes first, before any mutation; Untyped and Info are rejected. -/
def Logger.add_metric (l : Logger) (name : String) (help : String)
    (type : MetricType) (buckets : List Rat)
    (quantiles : List (Rat × Rat)) : Logger × Option String :=
  if (alookup l.families name).isSome then
    (l, some ("Metric already registered: " ++ name))
  else
    match type with
    | .Counter =>
        ({ l with families := l.families ++ [(name, .counter [])] }, none)
    | .Gauge =>
        ({ l with families := l.families ++ [(name, .gauge [])] }, none)
    | .Summary =>
        ({ l with families := l.families ++ [(name, .summary [])],
                  summary_quantiles := l.summary_quantiles ++ [(name, quantiles)] },
         none)
    | .Untyped => (l, some "Unsupported metric type")
    | .Histogram =>
        ({ l with families := l.families ++ [(name, .histogram [])],
                  histogram_buckets := l.histogram_buckets ++ [(name, buckets)] },
         none)
    | .Info => (l, some "Unsupported metric type")

/-- `Logger::report_metric(name, action, value, labels)` (C++ defaults:
`value = 1.0`, `labels = {}`).  Returns the post-state and `some message`
when the call throws.  The structure mirrors the `std::visit` over the
family variant:
* unknown name: throw, nothing mutated;
* Counter: only Increment is accepted; `Add(labels)` happens inside that
  branch (prometheus counters ignore a negative increment);
* Gauge: `Add(labels)` happens before the action is examined, so even the
  invalid-action throw leaves the label-set instance created;
* Histogram / Summary: only Observe is accepted; `Add` happens inside that
  branch. -/
def Logger.report_metric (l : Logger) (name : String) (action : MetricAction)
    (value : Rat) (labels : Labels) : Logger × Option String :=
  match alookup l.families name with
  | none => (l, some ("Unknown metric: " ++ name))
  | some fam =>
    match fam with
    | .counter insts =>
        if action = .Increment then
          let insts1 := instEnsure insts labels 0
          let insts2 :=
            if value < 0 then insts1
            else instModify insts1 labels (· + value)
          (l.setFamily name (.counter insts2), none)
        else (l, some "Counter only supports Increment")
    | .gauge insts =>
        let insts1 := instEnsure insts labels 0
        if action = .Increment then
          (l.setFamily name (.gauge (instModify insts1 labels (· + value))), none)
        else if action = .Decrement then
          (l.setFamily name (.gauge (instModify insts1 labels (· - value))), none)
        else if action = .Set then
          (l.setFamily name (.gauge (instModify insts1 labels (fun _ => value))), none)
        else
          (l.setFamily name (.gauge insts1), some "Invalid action for Gauge")
    | .histogram insts =>
        if action = .Observe then
          let insts1 := instEnsure insts labels []
          (l.setFamily name
            (.histogram (instModify insts1 labels (fun obs => obs ++ [value]))), none)
        else (l, some "Histogram only supports Observe")
    | .summary insts =>
        if action = .Observe then
          let insts1 := instEnsure insts labels []
          (l.setFamily name
            (.summary (instModify insts1 labels (fun obs => obs ++ [value]))), none)
        else (l, some "Summary only supports Observe")

/-- Current value of the gauge instance for `labels` in a gauge instance
map; an uninstantiated label set reads as 0 (a fresh prometheus gauge). -/
def gaugeValue (insts : List (Labels × Rat)) (labels : Labels) : Rat :=
  (alookup insts labels).getD 0

/-- `SinkType` (from `sinks/sink.hpp`). -/
inductive SinkType
  | CONSOLE | SYSLOG
  deriving DecidableEq, Repr

/-- `FormatterType` (from `formatters/formatter.hpp`). -/
inductive FormatterType
  | TEXT | JSON
  deriving DecidableEq, Repr

/-- Modelled from the spec: `string_to_sink_type` (its source file is not
under src/); the config sink key is the string enum "console" | "syslog",
defaulting to console. -/
def string_to_sink_type (s : String) : SinkType :=
  if s = "syslog" then .SYSLOG else .CONSOLE

/-- Modelled from the spec: `string_to_formatter_type` (its source file is
not under src/); the config format key is the string enum "text" | "json",
defaulting to text. -/
def string_to_formatter_type (s : String) : FormatterType :=
  if s = "json" then .JSON else .TEXT

/-- A parsed JSON config object, restricted to the flat string-valued
objects the loader reads. -/
abbrev JsonObj := List (String × String)

/-- `j.value(key, dflt)` on a flat string-valued object. -/
def jsonValue (j : JsonObj) (key : String) (dflt : String) : String :=
  (alookup j key).getD dflt

/-- `Config` (config.hpp): sink type, formatter type, app name. -/
structure Config where
  sink : SinkType
  format : FormatterType
  app_name : String
  deriving DecidableEq, Repr

/-- `Config::Config(json_path)`.  The file system is abstracted to the
contents the path resolves to (`none` = `!file.is_open()`), and the external
nlohmann parser to `parse` (`none` = `file >> j` raises `parse_error`).
When the file cannot be opened, the constructor assigns the defaults and
returns; when it opens, `file >> j` is run with no try/catch around it, so a
parse failure propagates as an exception (`Except.error`) out of the
constructor; otherwise the three fields are read with their defaults. -/
def Config.construct (parse : String → Option JsonObj)
    (fileContents : Option String) : Except String Config :=
  match fileContents with
  | none => .ok ⟨.CONSOLE, .TEXT, "DawgLog"⟩
  | some contents =>
    match parse contents with
    | none => .error "nlohmann::json::parse_error"
    | some j =>
        .ok ⟨string_to_sink_type (jsonValue j "sink" "console"),
             string_to_formatter_type (jsonValue j "format" "text"),
             jsonValue j "app_name" "DawgLog"⟩

/-- Modelled from the spec: `TextFormatter::format` (its source file is not
under src/); a human-readable single-line rendering of level, tag, source,
app name and message. -/
def TextFormatter.format (r : Record) : String :=
  "[" ++ r.app_name ++ "] " ++ toString (repr r.lvl) ++ " [" ++ r.tag ++ "] "
    ++ r.src.file ++ ":" ++ toString r.src.line ++ " " ++ r.message

/-- Modelled from the spec: `JsonFormatter::format` (its source file is not
under src/); a structured object with the Record's fields as keys. -/
def JsonFormatter.format (r : Record) : String :=
  "\x7b\"app_name\":\"" ++ r.app_name ++ "\",\"level\":\""
    ++ toString (repr r.lvl) ++ "\",\"tag\":\"" ++ r.tag ++ "\",\"file\":\""
    ++ r.src.file ++ "\",\"line\":" ++ toString r.src.line ++ ",\"message\":\""
    ++ r.message ++ "\"\x7d"

/-- `make_formatter` (logger.cpp anonymous namespace): JSON formatter for
JSON, text formatter for everything else. -/
def make_formatter (type : FormatterType) : Formatter :=
  match type with
  | .JSON => JsonFormatter.format
  | _ => TextFormatter.format

/-- `make_sink` (logger.cpp anonymous namespace): syslog sink for SYSLOG,
console sink for everything else. -/
def make_sink (type : SinkType) (app_name : String) : Sink :=
  match type with
  | .SYSLOG => .syslog app_name
  | _ => .console app_name

/-- `make_target` (logger.cpp anonymous namespace). -/
def make_target (sink_type : SinkType) (formatter_type : FormatterType)
    (app_name : String) : Target :=
  ⟨some (make_sink sink_type app_name), some (make_formatter formatter_type)⟩

/-- The auto-initialization warning text (logger.cpp, `Logger::instance`). -/
def autoInitWarning : String :=
  "Logger not initialized. Defaulting to console sink and text format."

/-- Modelled from the spec: the source location the `WARNING` call-site
macro (general_logs.hpp, not under src/) captures inside
`Logger::instance`. -/
def autoInitSrc : SourceLocation :=
  ⟨"logger.cpp", 71, "instance"⟩

/-- `Logger::instance()`: the global `logger` is the `Option Logger`
argument.  If it is unset, construct a Logger with one console/text target
and app name "DawgLog", then emit the warning through it; the `WARNING`
macro (general_logs.hpp, not under src/) is modelled from the spec as a
warning-level `log` call through the just-installed singleton with an empty
tag.  Returns the resulting global instance and the writes the accessor
itself caused. -/
def Logger.instanceAccess (g : Option Logger) : Logger × List Write :=
  match g with
  | some l => (l, [])
  | none =>
    let l0 := Logger.create [make_target .CONSOLE .TEXT "DawgLog"] "DawgLog"
    let res := l0.log .warning "" autoInitSrc autoInitWarning []
    (res.1, res.2.2)

/-! ### Concrete instances used to exercise the definitions -/

/-- A concrete call-site source location. -/
def demoSrc : SourceLocation := ⟨"main.cpp", 10, "main"⟩

/-- A concrete valid console/text target. -/
def demoTarget : Target := ⟨some (.console "app"), some TextFormatter.format⟩

/-- A concrete second target (syslog/json). -/
def demoTarget2 : Target := ⟨some (.syslog "app"), some JsonFormatter.format⟩

/-- A logger with one valid target. -/
def demoLogger : Logger := Logger.create [demoTarget] "app"

/-- A logger with two valid targets. -/
def demoLogger2 : Logger := Logger.create [demoTarget, demoTarget2] "app"

/-- A logger with one registered counter named "x". -/
def demoCounterLogger : Logger :=
  ((Logger.create [] "app").add_metric "x" "a counter" .Counter
      DAWGLOG_DEFAULT_BUCKETS DAWGLOG_DEFAULT_QUANTILES).1

/-- A logger with one registered gauge named "g". -/
def demoGaugeLogger : Logger :=
  ((Logger.create [] "app").add_metric "g" "a gauge" .Gauge
      DAWGLOG_DEFAULT_BUCKETS DAWGLOG_DEFAULT_QUANTILES).1

/-- A concrete stand-in for the external nlohmann parser: accepts only the
empty object. -/
def demoParse : String → Option JsonObj :=
  fun s => if s = "\x7b\x7d" then some [] else none

/-- Concrete file contents that are not valid JSON. -/
def badConfigText : String := "\x7binvalid json"

/-! ### Helper lemmas about association-list lookup -/

theorem alookup_append_of_none {A B : Type} [DecidableEq A]
    (xs ys : List (A × B)) (key : A) (h : alookup xs key = none) :
    alookup (xs ++ ys) key = alookup ys key := by
  induction xs with
  | nil => rfl
  | cons p ps ih =>
    rw [alookup] at h
    by_cases hk : key = p.1
    · simp [hk] at h
    · rw [List.cons_append, alookup]
      simp only [hk, if_false] at h ⊢
      exact ih h

theorem alookup_instEnsure {A : Type} (insts : List (Labels × A))
    (labels : Labels) (d : A) :
    alookup (instEnsure insts labels d) labels
      = some ((alookup insts labels).getD d) := by
  unfold instEnsure
  cases h : alookup insts labels with
  | some v => simp [h]
  | none =>
    rw [alookup_append_of_none _ _ _ h]
    simp [alookup]

theorem alookup_instModify {A : Type} (insts : List (Labels × A))
    (labels : Labels) (g : A → A) :
    alookup (instModify insts labels g) labels
      = (alookup insts labels).map g := by
  induction insts with
  | nil => rfl
  | cons p ps ih =>
    obtain ⟨k, v⟩ := p
    rw [instModify]
    by_cases hk : k = labels
    · rw [if_pos hk]
      simp only [alookup]
      rw [if_pos hk.symm, if_pos hk.symm]
      rfl
    · have hk2 : ¬ labels = k := fun h => hk h.symm
      rw [if_neg hk]
      simp only [alookup]
      rw [if_neg hk2, if_neg hk2]
      exact ih

theorem alookup_updateEntry {A B : Type} [DecidableEq A]
    (xs : List (A × B)) (key : A) (b : B)
    (hsome : (alookup xs key).isSome) :
    alookup (updateEntry xs key b) key = some b := by
  induction xs with
  | nil => simp [alookup] at hsome
  | cons p ps ih =>
    obtain ⟨k, v⟩ := p
    rw [updateEntry]
    by_cases hk : k = key
    · rw [if_pos hk]
      simp only [alookup]
      rw [if_pos hk.symm]
    · have hk2 : ¬ key = k := fun h => hk h.symm
      rw [alookup, if_neg hk2] at hsome
      rw [if_neg hk]
      simp only [alookup]
      rw [if_neg hk2]
      exact ih hsome

/-! ### Helper lemmas about dispatch -/

theorem dispatchTarget_record (r : Record) (t : Target) (w : Write)
    (h : dispatchTarget r t = some w) : w.record = r := by
  obtain ⟨s0, f0⟩ := t
  cases s0 with
  | none => simp [dispatchTarget] at h
  | some s =>
    cases f0 with
    | none => simp [dispatchTarget] at h
    | some f =>
      simp only [dispatchTarget, Option.some.injEq] at h
      rw [← h]

theorem writes_count (r : Record) (ts : List Target) :
    (ts.filterMap (dispatchTarget r)).length
      = (ts.filter Target.valid).length := by
  induction ts with
  | nil => rfl
  | cons t ts ih =>
    obtain ⟨s0, f0⟩ := t
    cases s0 <;> cases f0 <;>
      simp [List.filterMap_cons, List.filter_cons, dispatchTarget,
        Target.valid, ih]

/-! ### Claim theorems -/

/-- C1: for every level, tag, source location, template and argument list,
`Logger::log` returns exactly the message string obtained by substituting
the arguments into the template, and that same string is the message field
of the Record handed to every target's formatter and sink. -/
theorem log_returns_formatted_message (l : Logger) (lvl : LogLevel)
    (tag : String) (src : SourceLocation) (fmt_str : String)
    (args : List String) :
    (l.log lvl tag src fmt_str args).2.1 = fmtFormat fmt_str args ∧
    ∀ w ∈ (l.log lvl tag src fmt_str args).2.2,
      w.record = ⟨lvl, tag, src, l.app_name, fmtFormat fmt_str args⟩ := by
  refine ⟨rfl, ?_⟩
  intro w hw
  have hw2 : w ∈ l.targets.filterMap
      (dispatchTarget ⟨lvl, tag, src, l.app_name, fmtFormat fmt_str args⟩) :=
    hw
  rw [List.mem_filterMap] at hw2
  obtain ⟨t, _, ht⟩ := hw2
  exact dispatchTarget_record _ _ _ ht

/-- Witness for C1 at a concrete logger, template and argument. -/
theorem log_returns_formatted_message_witness :
    (demoLogger.log .info "t" demoSrc "x is \x7b\x7d" ["7"]).2.1
        = fmtFormat "x is \x7b\x7d" ["7"] ∧
    ∀ w ∈ (demoLogger.log .info "t" demoSrc "x is \x7b\x7d" ["7"]).2.2,
      w.record = ⟨.info, "t", demoSrc, demoLogger.app_name,
                  fmtFormat "x is \x7b\x7d" ["7"]⟩ :=
  log_returns_formatted_message demoLogger .info "t" demoSrc
    "x is \x7b\x7d" ["7"]

/-- C2: dispatch visits the target list in registration order and performs
exactly one write per target having both a sink and a formatter; a target
missing either half is skipped silently; in particular with one null-half
target followed by one valid target a single log call causes exactly one
write, delivered to the valid target's sink. -/
theorem log_skips_null_half_targets (l : Logger) (lvl : LogLevel)
    (tag : String) (src : SourceLocation) (fmt_str : String)
    (args : List String) :
    ((l.log lvl tag src fmt_str args).2.2.length
        = (l.targets.filter Target.valid).length) ∧
    (∀ (t0 : Target) (s : Sink) (f : Formatter),
      (t0.sink = none ∨ t0.formatter = none) →
      ((l.set_targets [t0, ⟨some s, some f⟩]).log lvl tag src fmt_str
          args).2.2
        = [⟨s, ⟨lvl, tag, src, l.app_name, fmtFormat fmt_str args⟩,
            f ⟨lvl, tag, src, l.app_name, fmtFormat fmt_str args⟩⟩]) := by
  constructor
  · exact writes_count _ _
  · rintro ⟨s0, f0⟩ s f h
    rcases h with h | h
    · dsimp only at h
      subst h
      simp [Logger.log, Logger.set_targets, dispatchTarget,
        List.filterMap_cons]
    · dsimp only at h
      subst h
      cases s0 <;>
        simp [Logger.log, Logger.set_targets, dispatchTarget,
          List.filterMap_cons]

/-- Witness for C2: one null-formatter target plus one valid target yield
exactly one write. -/
theorem log_skips_null_half_targets_witness :
    ((demoLogger.log .info "t" demoSrc "hi" []).2.2.length
        = (demoLogger.targets.filter Target.valid).length) ∧
    (Target.sink ⟨some (.console "app"), none⟩ = none ∨
      Target.formatter ⟨some (.console "app"), none⟩ = none) ∧
    ((demoLogger.set_targets
        [⟨some (.console "app"), none⟩,
         ⟨some (.syslog "app"), some TextFormatter.format⟩]).log
        .info "t" demoSrc "hi" []).2.2
      = [⟨.syslog "app", ⟨.info, "t", demoSrc, demoLogger.app_name,
            fmtFormat "hi" []⟩,
          TextFormatter.format
            ⟨.info, "t", demoSrc, demoLogger.app_name, fmtFormat "hi" []⟩⟩] :=
  ⟨(log_skips_null_half_targets demoLogger .info "t" demoSrc "hi" []).1,
   Or.inr rfl,
   (log_skips_null_half_targets demoLogger .info "t" demoSrc "hi" []).2
     ⟨some (.console "app"), none⟩ (.syslog "app") TextFormatter.format
     (Or.inr rfl)⟩

/-- C3: the claim says an existing but unparseable config file yields the
default Config; in the code the parse failure from `file >> j` propagates
out of the constructor (there is no try/catch), contradicting the
constructor's own documentation, which promises defaults when the file
cannot be "opened or parsed". -/
theorem config_unparseable_file_raises
    (parse : String → Option JsonObj) (contents : String)
    (h : parse contents = none) :
    Config.construct parse (some contents)
        = .error "nlohmann::json::parse_error" ∧
    ∀ cfg : Config, Config.construct parse (some contents) ≠ .ok cfg := by
  simp [Config.construct, h]

/-- Witness for C3's theorem at concrete unparseable file contents. -/
theorem config_unparseable_file_raises_witness :
    demoParse badConfigText = none ∧
    (Config.construct demoParse (some badConfigText)
        = .error "nlohmann::json::parse_error" ∧
     ∀ cfg : Config,
       Config.construct demoParse (some badConfigText) ≠ .ok cfg) :=
  ⟨by decide, config_unparseable_file_raises demoParse badConfigText
    (by decide)⟩

/-- C4: constructing a Config from a nonexistent path (the file cannot be
opened) yields exactly sink=console, format=text, app_name="DawgLog". -/
theorem config_nonexistent_path_defaults (parse : String → Option JsonObj) :
    Config.construct parse none
      = .ok ⟨SinkType.CONSOLE, FormatterType.TEXT, "DawgLog"⟩ := rfl

/-- C5: add_metric with an already-registered name throws the duplicate
error for any metric type and leaves the whole logger — in particular the
first registration — unchanged, so a name passes from unregistered to
registered at most once. -/
theorem add_metric_duplicate_fails (l : Logger) (name mhelp : String)
    (fam : Family) (type : MetricType) (buckets : List Rat)
    (quantiles : List (Rat × Rat))
    (h : alookup l.families name = some fam) :
    l.add_metric name mhelp type buckets quantiles
      = (l, some ("Metric already registered: " ++ name)) ∧
    alookup (l.add_metric name mhelp type buckets quantiles).1.families name
      = some fam := by
  have hs : (alookup l.families name).isSome := by rw [h]; rfl
  constructor
  · simp [Logger.add_metric, hs]
  · simp [Logger.add_metric, hs, h]

/-- Witness for C5: re-registering "x" (even under another type) fails and
keeps the counter registration. -/
theorem add_metric_duplicate_fails_witness :
    alookup demoCounterLogger.families "x" = some (.counter []) ∧
    (demoCounterLogger.add_metric "x" "again" .Gauge [] []
        = (demoCounterLogger, some ("Metric already registered: " ++ "x")) ∧
     alookup (demoCounterLogger.add_metric "x" "again" .Gauge
         [] []).1.families "x"
        = some (.counter [])) :=
  ⟨by decide,
   add_metric_duplicate_fails demoCounterLogger "x" "again" (.counter [])
     .Gauge [] [] (by decide)⟩

/-- C7: report_metric on a name never registered throws the unknown-metric
error, whatever the action, value and labels, and leaves the logger
unchanged. -/
theorem report_metric_unknown_name_fails (l : Logger) (name : String)
    (action : MetricAction) (value : Rat) (labels : Labels)
    (h : alookup l.families name = none) :
    l.report_metric name action value labels
      = (l, some ("Unknown metric: " ++ name)) := by
  simp [Logger.report_metric, h]

/-- Witness for C7 at a concrete unregistered name. -/
theorem report_metric_unknown_name_fails_witness :
    alookup (Logger.create [] "app").families "missing" = none ∧
    (Logger.create [] "app").report_metric "missing" .Increment 1 []
      = (Logger.create [] "app", some ("Unknown metric: " ++ "missing")) :=
  ⟨rfl,
   report_metric_unknown_name_fails (Logger.create [] "app") "missing"
     .Increment 1 [] rfl⟩

/-- C6: report_metric validates the action against the registered type: a
counter accepts only Increment; a gauge accepts exactly Increment,
Decrement and Set, with Increment raising the gauge's value by the given
amount; a histogram and a summary accept only Observe; every other
combination throws the type's invalid-action error (leaving the logger
unchanged except for the gauge case, whose instance creation precedes the
check). -/
theorem report_metric_validates_action (l : Logger) (name : String)
    (action : MetricAction) (value : Rat) (labels : Labels) :
    (∀ insts, alookup l.families name = some (.counter insts) →
      (((l.report_metric name action value labels).2 = none) ↔
        action = .Increment) ∧
      (action ≠ .Increment →
        l.report_metric name action value labels
          = (l, some "Counter only supports Increment"))) ∧
    (∀ insts, alookup l.families name = some (.gauge insts) →
      (((l.report_metric name action value labels).2 = none) ↔
        action ≠ .Observe) ∧
      (action = .Increment →
        ∃ insts2,
          alookup (l.report_metric name action value labels).1.families name
              = some (.gauge insts2) ∧
          gaugeValue insts2 labels = gaugeValue insts labels + value) ∧
      (action = .Observe →
        (l.report_metric name action value labels).2
          = some "Invalid action for Gauge")) ∧
    (∀ insts, alookup l.families name = some (.histogram insts) →
      (((l.report_metric name action value labels).2 = none) ↔
        action = .Observe) ∧
      (action ≠ .Observe →
        l.report_metric name action value labels
          = (l, some "Histogram only supports Observe"))) ∧
    (∀ insts, alookup l.families name = some (.summary insts) →
      (((l.report_metric name action value labels).2 = none) ↔
        action = .Observe) ∧
      (action ≠ .Observe →
        l.report_metric name action value labels
          = (l, some "Summary only supports Observe"))) := by
  refine ⟨?_, ?_, ?_, ?_⟩
  · intro insts h
    cases action <;> simp [Logger.report_metric, h]
  · intro insts h
    have hsome : (alookup l.families name).isSome := by rw [h]; rfl
    refine ⟨?_, ?_, ?_⟩
    · cases action <;> simp [Logger.report_metric, h]
    · intro ha
      subst ha
      refine ⟨instModify (instEnsure insts labels 0) labels (· + value),
        ?_, ?_⟩
      · have heq : l.report_metric name .Increment value labels
            = (l.setFamily name
                (.gauge (instModify (instEnsure insts labels 0) labels
                  (· + value))), none) := by
          simp [Logger.report_metric, h]
        rw [heq]
        exact alookup_updateEntry l.families name _ hsome
      · unfold gaugeValue
        rw [alookup_instModify, alookup_instEnsure]
        simp
    · intro ha
      subst ha
      simp [Logger.report_metric, h]
  · intro insts h
    cases action <;> simp [Logger.report_metric, h]
  · intro insts h
    cases action <;> simp [Logger.report_metric, h]

/-- Witness for C6: Decrement on the registered counter fails with the
counter's invalid-action error, and Increment on the registered gauge
succeeds, raising the gauge's value by 1. -/
theorem report_metric_validates_action_witness :
    alookup demoCounterLogger.families "x" = some (.counter []) ∧
    alookup demoGaugeLogger.families "g" = some (.gauge []) ∧
    (demoCounterLogger.report_metric "x" .Decrement 1 []
        = (demoCounterLogger, some "Counter only supports Increment")) ∧
    ((demoGaugeLogger.report_metric "g" .Increment 1 []).2 = none) ∧
    (∃ insts2,
      alookup (demoGaugeLogger.report_metric "g" .Increment 1
          []).1.families "g"
        = some (.gauge insts2) ∧
      gaugeValue insts2 [] = gaugeValue [] [] + 1) :=
  ⟨by decide, by decide,
   ((report_metric_validates_action demoCounterLogger "x" .Decrement 1
       []).1 [] (by decide)).2 (by decide),
   ((report_metric_validates_action demoGaugeLogger "g" .Increment 1
       []).2.1 [] (by decide)).1.mpr (by decide),
   ((report_metric_validates_action demoGaugeLogger "g" .Increment 1
       []).2.1 [] (by decide)).2.1 rfl⟩

/-- C8: calling the singleton accessor with no instance installed
auto-creates a Logger with a single console-sink/text-formatter target and
app name "DawgLog", and the very first Record that new Logger dispatches —
its entire dispatch history, written once to the console target — is the
auto-initialization warning emitted through the instance itself. -/
theorem instanceAccess_auto_init_first_record_is_warning :
    (Logger.instanceAccess none).1.targets
        = [⟨some (.console "DawgLog"), some TextFormatter.format⟩] ∧
    (Logger.instanceAccess none).1.app_name = "DawgLog" ∧
    (Logger.instanceAccess none).1.history
        = [⟨.warning, "", autoInitSrc, "DawgLog", autoInitWarning⟩] ∧
    (Logger.instanceAccess none).2
        = [⟨.console "DawgLog",
            ⟨.warning, "", autoInitSrc, "DawgLog", autoInitWarning⟩,
            TextFormatter.format
              ⟨.warning, "", autoInitSrc, "DawgLog", autoInitWarning⟩⟩] :=
  ⟨rfl, rfl, rfl, rfl⟩

/-- C9: set_formatter and set_sink replace only the corresponding half of
the front target: the front target's other half, all later targets, the
app name, the metrics registry maps and the dispatch history are untouched,
and on an empty target list both operations are complete no-ops. -/
theorem set_formatter_set_sink_frame (l : Logger) (fmt : Option Formatter)
    (sink : Option Sink) :
    (l.targets = [] → l.set_formatter fmt = l ∧ l.set_sink sink = l) ∧
    (∀ t ts, l.targets = t :: ts →
      (l.set_formatter fmt).targets = ⟨t.sink, fmt⟩ :: ts ∧
      (l.set_sink sink).targets = ⟨sink, t.formatter⟩ :: ts ∧
      (l.set_formatter fmt).app_name = l.app_name ∧
      (l.set_formatter fmt).families = l.families ∧
      (l.set_formatter fmt).histogram_buckets = l.histogram_buckets ∧
      (l.set_formatter fmt).summary_quantiles = l.summary_quantiles ∧
      (l.set_formatter fmt).history = l.history ∧
      (l.set_sink sink).app_name = l.app_name ∧
      (l.set_sink sink).families = l.families ∧
      (l.set_sink sink).histogram_buckets = l.histogram_buckets ∧
      (l.set_sink sink).summary_quantiles = l.summary_quantiles ∧
      (l.set_sink sink).history = l.history) := by
  obtain ⟨ts0, app, fams, hb, sq, hist⟩ := l
  constructor
  · intro h
    dsimp only at h
    subst h
    exact ⟨rfl, rfl⟩
  · intro t ts h
    dsimp only at h
    subst h
    obtain ⟨tsnk, tfmt⟩ := t
    exact ⟨rfl, rfl, rfl, rfl, rfl, rfl, rfl, rfl, rfl, rfl, rfl, rfl⟩

/-- Witness for C9: on an empty-target logger both mutators are no-ops, and
on a two-target logger only the front target's corresponding half moves. -/
theorem set_formatter_set_sink_frame_witness :
    ((Logger.create [] "app").set_formatter (some TextFormatter.format)
        = Logger.create [] "app") ∧
    ((demoLogger2.set_formatter (some JsonFormatter.format)).targets
        = ⟨some (.console "app"), some JsonFormatter.format⟩
            :: [demoTarget2]) ∧
    ((demoLogger2.set_sink (some (.syslog "elsewhere"))).targets
        = ⟨some (.syslog "elsewhere"), some TextFormatter.format⟩
            :: [demoTarget2]) ∧
    (demoLogger2.set_formatter (some JsonFormatter.format)).families
        = demoLogger2.families :=
  ⟨((set_formatter_set_sink_frame (Logger.create [] "app")
      (some TextFormatter.format) none).1 rfl).1,
   ((set_formatter_set_sink_frame demoLogger2 (some JsonFormatter.format)
      (some (.syslog "elsewhere"))).2 demoTarget [demoTarget2] rfl).1,
   ((set_formatter_set_sink_frame demoLogger2 (some JsonFormatter.format)
      (some (.syslog "elsewhere"))).2 demoTarget [demoTarget2] rfl).2.1,
   ((set_formatter_set_sink_frame demoLogger2 (some JsonFormatter.format)
      (some (.syslog "elsewhere"))).2 demoTarget [demoTarget2]
      rfl).2.2.2.1⟩

/-- C10: report_metric on a registered Gauge with the invalid action
Observe throws the invalid-action error, but only after
`Family::Add(labels)` has run: a previously absent label combination ends
up (and stays) instantiated at 0 in the family, so the failing call is not
state-preserving. -/
theorem gauge_observe_failure_instantiates_labels (l : Logger)
    (name : String) (value : Rat) (labels : Labels)
    (insts : List (Labels × Rat))
    (hfam : alookup l.families name = some (.gauge insts))
    (habs : alookup insts labels = none) :
    (l.report_metric name .Observe value labels).2
        = some "Invalid action for Gauge" ∧
    alookup (l.report_metric name .Observe value labels).1.families name
        = some (.gauge (insts ++ [(labels, 0)])) ∧
    alookup (insts ++ [(labels, 0)]) labels = some 0 ∧
    (l.report_metric name .Observe value labels).1.families
        ≠ l.families := by
  have hsome : (alookup l.families name).isSome := by rw [hfam]; rfl
  have hens : instEnsure insts labels 0 = insts ++ [(labels, 0)] := by
    unfold instEnsure
    rw [habs]
  have heq : l.report_metric name .Observe value labels
      = (l.setFamily name (.gauge (insts ++ [(labels, 0)])),
         some "Invalid action for Gauge") := by
    simp [Logger.report_metric, hfam, hens]
  have hlook : alookup (l.report_metric name .Observe value
      labels).1.families name = some (.gauge (insts ++ [(labels, 0)])) := by
    rw [heq]
    exact alookup_updateEntry l.families name _ hsome
  refine ⟨by rw [heq], hlook, ?_, ?_⟩
  · rw [alookup_append_of_none _ _ _ habs]
    simp [alookup]
  · intro hcontra
    rw [hcontra, hfam] at hlook
    have hinj : insts ++ [(labels, 0)] = insts := by
      have := Option.some.inj hlook
      exact (Family.gauge.inj this).symm
    have hlen := congrArg List.length hinj
    simp at hlen

/-- Witness for C10: Observe on the registered gauge "g" with a fresh label
set fails yet instantiates that label set. -/
theorem gauge_observe_failure_instantiates_labels_witness :
    alookup demoGaugeLogger.families "g" = some (.gauge []) ∧
    alookup ([] : List (Labels × Rat)) [("k", "v")] = none ∧
    ((demoGaugeLogger.report_metric "g" .Observe 1 [("k", "v")]).2
        = some "Invalid action for Gauge" ∧
     alookup (demoGaugeLogger.report_metric "g" .Observe 1
         [("k", "v")]).1.families "g"
        = some (.gauge ([] ++ [([("k", "v")], 0)])) ∧
     alookup (([] : List (Labels × Rat))
         ++ [(([("k", "v")] : Labels), (0 : Rat))]) [("k", "v")]
        = some 0 ∧
     (demoGaugeLogger.report_metric "g" .Observe 1
         [("k", "v")]).1.families ≠ demoGaugeLogger.families) :=
  ⟨by decide, rfl,
   gauge_observe_failure_instantiates_labels demoGaugeLogger "g" 1
     [("k", "v")] [] (by decide) rfl⟩

end DawgLog
